import Mathlib

/-!
Verification of the Streamlit Reddit WSB dashboard (src/streamlit_app.py)
against its natural-language specification.

The file shallowly embeds the pieces of the script the claims are about:
the API-client functions (lines 35-197), the prediction banding and the
thermometer gauge (lines 322-386), the comparative-analysis loop
(lines 408-486), the market-cap formatter (lines 427-438 and 765-777),
the RSI interpretation (lines 802-808), the analyze-text guard
(lines 906-907), the Reddit classification (line 1099), and the rendering
lookups on response dictionaries (lines 263-316, 1327-1388).

Floats of the script are modelled as exact rationals; Python dicts as
association lists; the network as an explicit argument carrying the single
HTTP outcome an operation observes.
-/

set_option linter.unusedVariables false

namespace WSB

/-- A JSON value as delivered by the prediction API. -/
inductive JVal where
  | null
  | bool (b : Bool)
  | num (q : ℚ)
  | str (s : String)
  | arr (elems : List JVal)
  | obj (fields : List (String × JVal))

/-- A Python dict received from the API, as an association list
(keys are unique in a dict, so first-match lookup is faithful). -/
abbrev Dict := List (String × JVal)

/-- Direct subscript `d[k]`: `some` value when the key is present,
`none` models the KeyError raised when it is absent. -/
def dget : Dict → String → Option JVal
  | [], _ => none
  | (k', v) :: rest, k => if k' = k then some v else dget rest k

/-- Defaulted lookup `d.get(k, default)`. -/
def dgetD (d : Dict) (k : String) (default : JVal) : JVal :=
  (dget d k).getD default

/-- The outcome of the single HTTP request an API-client function issues:
either a response with a status code and (when the body parses as JSON)
a parsed body, or a transport failure (connection error / timeout),
which in the script raises inside the `try` block. -/
inductive ApiResult (α : Type) where
  | response (status : Nat) (body : Option α)
  | failure

/-- The HTTP request an operation sends: method, full URL path,
query parameters, and the per-endpoint timeout in seconds. -/
structure HttpRequest where
  method : String
  path : String
  params : List (String × String)
  timeout : Nat

/-- Line 39: GET {api_url}/health, timeout 10. -/
def check_api_health_request (api_url : String) : HttpRequest :=
  ⟨"GET", api_url ++ "/health", [], 10⟩

/-- Lines 64-68: GET {api_url}/predict/{symbol}?include_sentiment=..., timeout 30. -/
def get_prediction_request (api_url symbol : String) (include_sentiment : Bool) : HttpRequest :=
  ⟨"GET", api_url ++ "/predict/" ++ symbol,
   [("include_sentiment", if include_sentiment then "True" else "False")], 30⟩

/-- Line 82: GET {api_url}/model/info, timeout 10. -/
def get_model_info_request (api_url : String) : HttpRequest :=
  ⟨"GET", api_url ++ "/model/info", [], 10⟩

/-- Line 95: GET {api_url}/stock/{symbol}/info, timeout 10. -/
def get_stock_info_request (api_url symbol : String) : HttpRequest :=
  ⟨"GET", api_url ++ "/stock/" ++ symbol ++ "/info", [], 10⟩

/-- Line 108: GET {api_url}/stock/{symbol}/indicators, timeout 10. -/
def get_technical_indicators_request (api_url symbol : String) : HttpRequest :=
  ⟨"GET", api_url ++ "/stock/" ++ symbol ++ "/indicators", [], 10⟩

/-- Lines 121-122: GET {api_url}/reddit/{symbol}/sentiment?limit=..., timeout 15. -/
def get_reddit_sentiment_request (api_url symbol : String) (limit : Nat) : HttpRequest :=
  ⟨"GET", api_url ++ "/reddit/" ++ symbol ++ "/sentiment", [("limit", toString limit)], 15⟩

/-- Lines 135-136: GET {api_url}/reddit/{symbol}/comprehensive, timeout 30. -/
def get_comprehensive_reddit_analysis_request (api_url symbol subreddits : String)
    (limit : Nat) : HttpRequest :=
  ⟨"GET", api_url ++ "/reddit/" ++ symbol ++ "/comprehensive",
   [("subreddits", subreddits), ("limit", toString limit)], 30⟩

/-- Line 149: GET {api_url}/reddit/subreddits/available, timeout 10. -/
def get_available_subreddits_request (api_url : String) : HttpRequest :=
  ⟨"GET", api_url ++ "/reddit/subreddits/available", [], 10⟩

/-- Lines 162-163: POST {api_url}/reddit/analyze-text?text=..., timeout 15. -/
def analyze_text_api_request (api_url text : String) : HttpRequest :=
  ⟨"POST", api_url ++ "/reddit/analyze-text", [("text", text)], 15⟩

/-- Lines 176-177: GET {api_url}/reddit/{symbol}/posts?limit=..., timeout 15. -/
def get_reddit_posts_request (api_url symbol : String) (limit : Nat) : HttpRequest :=
  ⟨"GET", api_url ++ "/reddit/" ++ symbol ++ "/posts", [("limit", toString limit)], 15⟩

/-- Lines 190-191: GET {api_url}/stock/{symbol}/history?period=...&interval=..., timeout 15. -/
def get_historical_data_api_request (api_url symbol period interval : String) : HttpRequest :=
  ⟨"GET", api_url ++ "/stock/" ++ symbol ++ "/history",
   [("period", period), ("interval", interval)], 15⟩

/-- Each client function's body contains exactly one requests call; the
list of requests a call issues is therefore a singleton. -/
def check_api_health_requests (api_url : String) : List HttpRequest :=
  [check_api_health_request api_url]

/-- Requests issued by one get_prediction call. -/
def get_prediction_requests (api_url symbol : String) (include_sentiment : Bool) :
    List HttpRequest :=
  [get_prediction_request api_url symbol include_sentiment]

/-- Requests issued by one get_model_info call. -/
def get_model_info_requests (api_url : String) : List HttpRequest :=
  [get_model_info_request api_url]

/-- Requests issued by one get_stock_info call. -/
def get_stock_info_requests (api_url symbol : String) : List HttpRequest :=
  [get_stock_info_request api_url symbol]

/-- Requests issued by one get_technical_indicators call. -/
def get_technical_indicators_requests (api_url symbol : String) : List HttpRequest :=
  [get_technical_indicators_request api_url symbol]

/-- Requests issued by one get_reddit_sentiment call. -/
def get_reddit_sentiment_requests (api_url symbol : String) (limit : Nat) : List HttpRequest :=
  [get_reddit_sentiment_request api_url symbol limit]

/-- Requests issued by one get_comprehensive_reddit_analysis call. -/
def get_comprehensive_reddit_analysis_requests (api_url symbol subreddits : String)
    (limit : Nat) : List HttpRequest :=
  [get_comprehensive_reddit_analysis_request api_url symbol subreddits limit]

/-- Requests issued by one get_available_subreddits call. -/
def get_available_subreddits_requests (api_url : String) : List HttpRequest :=
  [get_available_subreddits_request api_url]

/-- Requests issued by one analyze_text_api call. -/
def analyze_text_api_requests (api_url text : String) : List HttpRequest :=
  [analyze_text_api_request api_url text]

/-- Requests issued by one get_reddit_posts call. -/
def get_reddit_posts_requests (api_url symbol : String) (limit : Nat) : List HttpRequest :=
  [get_reddit_posts_request api_url symbol limit]

/-- Requests issued by one get_historical_data_api call. -/
def get_historical_data_api_requests (api_url symbol period interval : String) :
    List HttpRequest :=
  [get_historical_data_api_request api_url symbol period interval]

/-- Lines 35-45: returns (True, parsed body) on status 200 with a JSON body;
(False, None) on any other status; (False, None) when the request or the
body parse raises (caught by the bare except). -/
def check_api_health (api_url : String) (r : ApiResult JVal) : Bool × Option JVal :=
  match r with
  | ApiResult.response 200 (some body) => (true, some body)
  | _ => (false, none)

/-- Lines 60-75: parsed body on 200, None on any other status, None when the
request or the body parse raises (the except branch also shows st.error). -/
def get_prediction (symbol : String) (include_sentiment : Bool) (r : ApiResult JVal) :
    Option JVal :=
  match r with
  | ApiResult.response 200 (some body) => some body
  | _ => none

/-- Lines 78-88: same contract as get_prediction. -/
def get_model_info (r : ApiResult JVal) : Option JVal :=
  match r with
  | ApiResult.response 200 (some body) => some body
  | _ => none

/-- Lines 91-101: same contract. -/
def get_stock_info (symbol : String) (r : ApiResult JVal) : Option JVal :=
  match r with
  | ApiResult.response 200 (some body) => some body
  | _ => none

/-- Lines 104-114: same contract. -/
def get_technical_indicators (symbol : String) (r : ApiResult JVal) : Option JVal :=
  match r with
  | ApiResult.response 200 (some body) => some body
  | _ => none

/-- Lines 117-128: same contract. -/
def get_reddit_sentiment (symbol : String) (limit : Nat) (r : ApiResult JVal) : Option JVal :=
  match r with
  | ApiResult.response 200 (some body) => some body
  | _ => none

/-- Lines 131-142: same contract. -/
def get_comprehensive_reddit_analysis (symbol subreddits : String) (limit : Nat)
    (r : ApiResult JVal) : Option JVal :=
  match r with
  | ApiResult.response 200 (some body) => some body
  | _ => none

/-- Lines 145-155: same contract. -/
def get_available_subreddits (r : ApiResult JVal) : Option JVal :=
  match r with
  | ApiResult.response 200 (some body) => some body
  | _ => none

/-- Lines 158-169: same contract (the one POST operation). -/
def analyze_text_api (text : String) (r : ApiResult JVal) : Option JVal :=
  match r with
  | ApiResult.response 200 (some body) => some body
  | _ => none

/-- Lines 172-183: same contract. -/
def get_reddit_posts (symbol : String) (limit : Nat) (r : ApiResult JVal) : Option JVal :=
  match r with
  | ApiResult.response 200 (some body) => some body
  | _ => none

/-- Lines 186-197: same contract. -/
def get_historical_data_api (symbol period interval : String) (r : ApiResult JVal) :
    Option JVal :=
  match r with
  | ApiResult.response 200 (some body) => some body
  | _ => none

/-- The contract stated by the spec, written from its words: the parsed JSON
body on HTTP 200, the sentinel `none` on any other status code or on any
transport error or malformed body. Each client operation is compared with
this definition. -/
def contractResult (r : ApiResult JVal) : Option JVal :=
  match r with
  | ApiResult.response 200 (some body) => some body
  | _ => none

/-- The four banding tiers of the prediction interpretation. -/
inductive Band where
  | strongBullish
  | bullish
  | bearish
  | strongBearish
  deriving DecidableEq, BEq

/-- Lines 379-386: the interpretation shown under a prediction.
strongBullish renders st.success "Tendencia Alcista Fuerte", bullish
st.info "Tendencia Alcista", bearish st.warning "Tendencia Bajista",
strongBearish st.error "Tendencia Bajista Fuerte". -/
def interpretBand (pred_pct : ℚ) : Band :=
  if pred_pct > 2 then Band.strongBullish
  else if pred_pct > 0 then Band.bullish
  else if pred_pct > -2 then Band.bearish
  else Band.strongBearish

/-- Line 325: normalized_value = max(-10, min(10, value)). -/
def normalized_value (value : ℚ) : ℚ :=
  max (-10) (min 10 value)

/-- Line 353: progress_value = (normalized_value + 10) / 20. -/
def progress_value (value : ℚ) : ℚ :=
  (normalized_value value + 10) / 20

/-- The color, emoji and sentiment label the gauge picks (lines 327-343). -/
structure GaugeStyle where
  color : String
  emoji : String
  sentiment : String

/-- Lines 322-343 (create_thermometer_gauge): clamp the value, then choose
color / emoji / sentiment from the clamped value. -/
def gaugeStyle (value : ℚ) : GaugeStyle :=
  let n := max (-10) (min 10 value)
  if n > 2 then ⟨"#28a745", "🔥", "MUY BULLISH"⟩
  else if n > 0 then ⟨"#20c997", "📈", "BULLISH"⟩
  else if n > -2 then ⟨"#ffc107", "📉", "BEARISH"⟩
  else ⟨"#dc3545", "❄️", "MUY BEARISH"⟩

/-- Correspondence between the four banding tiers and the gauge's sentiment
labels, written from the spec's statement that the gauge reuses the
four-tier prediction bands. -/
def bandLabel : Band → String
  | Band.strongBullish => "MUY BULLISH"
  | Band.bullish => "BULLISH"
  | Band.bearish => "BEARISH"
  | Band.strongBearish => "MUY BEARISH"

/-- The three RSI interpretation states of lines 802-808. -/
inductive RsiBand where
  | overbought
  | oversold
  | neutral
  deriving DecidableEq, BEq

/-- Lines 802-808: rsi > 70 shows the overbought warning, rsi < 30 the
oversold notice, anything else the neutral message (rsi itself defaults
to 50 at line 802 when the field is absent). -/
def rsi_interpretation (rsi : ℚ) : RsiBand :=
  if rsi > 70 then RsiBand.overbought
  else if rsi < 30 then RsiBand.oversold
  else RsiBand.neutral

/-- Rounding to an integer the way Python's fixed-point formatting does:
round half to even, computed on the numerator and denominator (f is the
floor, r the nonnegative remainder, and r/den compares to 1/2 as 2r to
den). -/
def halfEvenRound (q : ℚ) : ℤ :=
  let a := q.num
  let b : ℤ := (q.den : ℤ)
  let f := a.fdiv b
  let r := a - f * b
  if 2 * r < b then f
  else if b < 2 * r then f + 1
  else if f % 2 = 0 then f else f + 1

/-- Python f-string formatting with one decimal place. -/
def fmt1 (q : ℚ) : String :=
  let n : ℤ := halfEvenRound (q * 10)
  if n < 0 then "-" ++ toString ((-n) / 10) ++ "." ++ toString ((-n) % 10)
  else toString (n / 10) ++ "." ++ toString (n % 10)

/-- Two-decimal counterpart, for the price formatting at line 447. -/
def fmt2 (q : ℚ) : String :=
  let n : ℤ := halfEvenRound (q * 100)
  let core := fun (m : ℤ) =>
    toString (m / 100) ++ "." ++ (if m % 100 < 10 then "0" else "") ++ toString (m % 100)
  if n < 0 then "-" ++ core (-n) else core n

/-- Insert a comma after every three characters of a reversed digit list. -/
def commaRev : List Char → List Char
  | a :: b :: c :: d :: rest => a :: b :: c :: ',' :: commaRev (d :: rest)
  | l => l

/-- Python f-string formatting with thousands separators and no decimals. -/
def fmtThousands (q : ℚ) : String :=
  let n : ℤ := halfEvenRound q
  let grouped := String.mk (commaRev (toString n.natAbs).data.reverse).reverse
  if n < 0 then "-" ++ grouped else grouped

/-- Lines 427-438 (Análisis tab): market-cap formatting. `none` models a
missing/None market_cap; Python's `if market_cap:` is also false at 0. -/
def market_cap_str (market_cap : Option ℚ) : String :=
  match market_cap with
  | none => "N/A"
  | some m =>
    if m = 0 then "N/A"
    else if 10^12 ≤ m then "$" ++ fmt1 (m / 10^12) ++ "T"
    else if 10^9 ≤ m then "$" ++ fmt1 (m / 10^9) ++ "B"
    else if 10^6 ≤ m then "$" ++ fmt1 (m / 10^6) ++ "M"
    else "$" ++ fmtThousands m

/-- Lines 765-777 (Información de Acción tab): the second, identical copy of
the market-cap formatter. -/
def market_cap_formatted (market_cap : Option ℚ) : String :=
  match market_cap with
  | none => "N/A"
  | some m =>
    if m = 0 then "N/A"
    else if 10^12 ≤ m then "$" ++ fmt1 (m / 10^12) ++ "T"
    else if 10^9 ≤ m then "$" ++ fmt1 (m / 10^9) ++ "B"
    else if 10^6 ≤ m then "$" ++ fmt1 (m / 10^6) ++ "M"
    else "$" ++ fmtThousands m

/-- Line 1099: is_comprehensive = 'subreddit_analysis' in sentiment_data. -/
def is_comprehensive (sentiment_data : Dict) : Bool :=
  (dget sentiment_data "subreddit_analysis").isSome

/-- Python str.strip(): drop leading and trailing whitespace. -/
def pyStrip (s : String) : String :=
  String.mk (((s.data.dropWhile Char.isWhitespace).reverse.dropWhile Char.isWhitespace).reverse)

/-- Line 907: `if text_input and len(text_input.strip()) > 3:` - the guard in
front of the analyze-text network call; when false, line 1007 shows the
warning "Por favor ingresa un texto válido (mínimo 3 caracteres)." and no
call is made. -/
def analyze_text_guard (text_input : String) : Bool :=
  !text_input.isEmpty && decide (3 < (pyStrip text_input).length)

/-- One memoised entry of st.cache_data: key, wall-clock second it was
stored at, cached value. -/
structure CacheEntry (κ ω : Type) where
  key : κ
  storedAt : Nat
  value : ω

/-- st.cache_data lookup: the value of a still-fresh entry for this key. -/
def cacheLookup [DecidableEq κ] (ttl now : Nat) (cache : List (CacheEntry κ ω))
    (k : κ) : Option ω :=
  match cache.find? (fun e => decide (e.key = k) && decide (now < e.storedAt + ttl)) with
  | some e => some e.value
  | none => none

/-- st.cache_data semantics around one call: a hit returns the cached value
and makes no network call; a miss runs the body and stores the result.
Result: (value, updated cache, whether a network call was made). -/
def cachedCall [DecidableEq κ] (ttl now : Nat) (cache : List (CacheEntry κ ω)) (k : κ)
    (fetch : Unit → ω) : ω × List (CacheEntry κ ω) × Bool :=
  match cacheLookup ttl now cache k with
  | some v => (v, cache, false)
  | none =>
    let v := fetch ()
    (v, ⟨k, now, v⟩ :: cache, true)

/-- get_prediction's st.cache_data key: the function's own parameters
(symbol, include_sentiment), lines 60-61. The module-level api_url is
closed over, not a parameter, so it is not part of the key. -/
def get_prediction_cache_key (symbol : String) (include_sentiment : Bool) : String × Bool :=
  (symbol, include_sentiment)

/-- check_api_health's st.cache_data key: its single parameter api_url
(lines 35-36). -/
def check_api_health_cache_key (api_url : String) : String :=
  api_url

/-- One cached invocation of get_prediction: `net` is the network, mapping
the issued request to a response body; the key omits api_url while the
fetched request depends on it. TTL is 600 seconds (line 60). -/
def get_prediction_cached (net : HttpRequest → String) (api_url : String)
    (cache : List (CacheEntry (String × Bool) String)) (now : Nat)
    (symbol : String) (include_sentiment : Bool) :
    String × List (CacheEntry (String × Bool) String) × Bool :=
  cachedCall 600 now cache (get_prediction_cache_key symbol include_sentiment)
    (fun _ => net (get_prediction_request api_url symbol include_sentiment))

/-- get_model_info's st.cache_data key: the function takes no parameters
(lines 78-79), so every call shares the single empty-tuple key. -/
def get_model_info_cache_key : Unit := ()

/-- get_stock_info's st.cache_data key: its symbol parameter (lines 91-92). -/
def get_stock_info_cache_key (symbol : String) : String := symbol

/-- get_technical_indicators's st.cache_data key: its symbol parameter
(lines 104-105). -/
def get_technical_indicators_cache_key (symbol : String) : String := symbol

/-- get_reddit_sentiment's st.cache_data key: (symbol, limit)
(lines 117-118). -/
def get_reddit_sentiment_cache_key (symbol : String) (limit : Nat) : String × Nat :=
  (symbol, limit)

/-- get_comprehensive_reddit_analysis's st.cache_data key:
(symbol, subreddits, limit) (lines 131-132). -/
def get_comprehensive_reddit_analysis_cache_key (symbol subreddits : String) (limit : Nat) :
    String × String × Nat :=
  (symbol, subreddits, limit)

/-- get_available_subreddits's st.cache_data key: no parameters
(lines 145-146). -/
def get_available_subreddits_cache_key : Unit := ()

/-- analyze_text_api's st.cache_data key: its text parameter
(lines 158-159). -/
def analyze_text_api_cache_key (text : String) : String := text

/-- get_reddit_posts's st.cache_data key: (symbol, limit) (lines 172-173). -/
def get_reddit_posts_cache_key (symbol : String) (limit : Nat) : String × Nat :=
  (symbol, limit)

/-- get_historical_data_api's st.cache_data key:
(symbol, period, interval) (lines 186-187). -/
def get_historical_data_api_cache_key (symbol period interval : String) :
    String × String × String :=
  (symbol, period, interval)

/-- One cached invocation of get_model_info, TTL 3600 (line 78); the
module-level api_url is closed over and absent from the key. -/
def get_model_info_cached (net : HttpRequest → String) (api_url : String)
    (cache : List (CacheEntry Unit String)) (now : Nat) :
    String × List (CacheEntry Unit String) × Bool :=
  cachedCall 3600 now cache get_model_info_cache_key
    (fun _ => net (get_model_info_request api_url))

/-- One cached invocation of get_stock_info, TTL 600 (line 91); api_url
closed over, absent from the key. -/
def get_stock_info_cached (net : HttpRequest → String) (api_url : String)
    (cache : List (CacheEntry String String)) (now : Nat) (symbol : String) :
    String × List (CacheEntry String String) × Bool :=
  cachedCall 600 now cache (get_stock_info_cache_key symbol)
    (fun _ => net (get_stock_info_request api_url symbol))

/-- One cached invocation of get_technical_indicators, TTL 300 (line 104);
api_url closed over, absent from the key. -/
def get_technical_indicators_cached (net : HttpRequest → String) (api_url : String)
    (cache : List (CacheEntry String String)) (now : Nat) (symbol : String) :
    String × List (CacheEntry String String) × Bool :=
  cachedCall 300 now cache (get_technical_indicators_cache_key symbol)
    (fun _ => net (get_technical_indicators_request api_url symbol))

/-- One cached invocation of get_reddit_sentiment, TTL 300 (line 117);
api_url closed over, absent from the key. -/
def get_reddit_sentiment_cached (net : HttpRequest → String) (api_url : String)
    (cache : List (CacheEntry (String × Nat) String)) (now : Nat)
    (symbol : String) (limit : Nat) :
    String × List (CacheEntry (String × Nat) String) × Bool :=
  cachedCall 300 now cache (get_reddit_sentiment_cache_key symbol limit)
    (fun _ => net (get_reddit_sentiment_request api_url symbol limit))

/-- One cached invocation of get_comprehensive_reddit_analysis, TTL 300
(line 131); api_url closed over, absent from the key. -/
def get_comprehensive_reddit_analysis_cached (net : HttpRequest → String) (api_url : String)
    (cache : List (CacheEntry (String × String × Nat) String)) (now : Nat)
    (symbol subreddits : String) (limit : Nat) :
    String × List (CacheEntry (String × String × Nat) String) × Bool :=
  cachedCall 300 now cache (get_comprehensive_reddit_analysis_cache_key symbol subreddits limit)
    (fun _ => net (get_comprehensive_reddit_analysis_request api_url symbol subreddits limit))

/-- One cached invocation of get_available_subreddits, TTL 3600 (line 145);
api_url closed over, absent from the key. -/
def get_available_subreddits_cached (net : HttpRequest → String) (api_url : String)
    (cache : List (CacheEntry Unit String)) (now : Nat) :
    String × List (CacheEntry Unit String) × Bool :=
  cachedCall 3600 now cache get_available_subreddits_cache_key
    (fun _ => net (get_available_subreddits_request api_url))

/-- One cached invocation of analyze_text_api, TTL 60 (line 158); api_url
closed over, absent from the key. -/
def analyze_text_api_cached (net : HttpRequest → String) (api_url : String)
    (cache : List (CacheEntry String String)) (now : Nat) (text : String) :
    String × List (CacheEntry String String) × Bool :=
  cachedCall 60 now cache (analyze_text_api_cache_key text)
    (fun _ => net (analyze_text_api_request api_url text))

/-- One cached invocation of get_reddit_posts, TTL 300 (line 172); api_url
closed over, absent from the key. -/
def get_reddit_posts_cached (net : HttpRequest → String) (api_url : String)
    (cache : List (CacheEntry (String × Nat) String)) (now : Nat)
    (symbol : String) (limit : Nat) :
    String × List (CacheEntry (String × Nat) String) × Bool :=
  cachedCall 300 now cache (get_reddit_posts_cache_key symbol limit)
    (fun _ => net (get_reddit_posts_request api_url symbol limit))

/-- One cached invocation of get_historical_data_api, TTL 300 (line 186);
api_url closed over, absent from the key. -/
def get_historical_data_api_cached (net : HttpRequest → String) (api_url : String)
    (cache : List (CacheEntry (String × String × String) String)) (now : Nat)
    (symbol period interval : String) :
    String × List (CacheEntry (String × String × String) String) × Bool :=
  cachedCall 300 now cache (get_historical_data_api_cache_key symbol period interval)
    (fun _ => net (get_historical_data_api_request api_url symbol period interval))

/-- The fields the prediction view reads (lines 263-316). -/
structure PredictionView where
  prediction_percent : JVal
  symbol : JVal
  timestamp : JVal
  prediction : JVal
  message : JVal
  data_sources : JVal

/-- Lines 263-316 in lookup order: prediction_percent (line 273), symbol
(line 280), timestamp (line 287) and prediction (line 298) are direct
subscripts - `none` models the KeyError that aborts the view; message
(line 301) is a defaulted .get. -/
def renderPrediction (prediction_data : Dict) : Option PredictionView := do
  let prediction_percent ← dget prediction_data "prediction_percent"
  let symbol ← dget prediction_data "symbol"
  let timestamp ← dget prediction_data "timestamp"
  let prediction ← dget prediction_data "prediction"
  let message := dgetD prediction_data "message" (JVal.str "N/A")
  let data_sources ← dget prediction_data "data_sources"
  pure ⟨prediction_percent, symbol, timestamp, prediction, message, data_sources⟩

/-- The fields the posts view reads (lines 1327-1388). -/
structure PostView where
  title : JVal
  author : JVal
  selftext : JVal
  created_utc : JVal
  score : JVal
  num_comments : JVal
  upvote_ratio : JVal
  url : JVal

/-- Lines 1327-1388 in lookup order: every one of these is a direct
subscript (title line 1328, author 1332, selftext 1333, created_utc 1334,
score 1373, num_comments 1374, upvote_ratio 1375, url 1381), so `none`
models the KeyError that aborts the posts view. -/
def renderPost (post : Dict) : Option PostView := do
  let title ← dget post "title"
  let author ← dget post "author"
  let selftext ← dget post "selftext"
  let created_utc ← dget post "created_utc"
  let score ← dget post "score"
  let num_comments ← dget post "num_comments"
  let upvote_ratio ← dget post "upvote_ratio"
  let url ← dget post "url"
  pure ⟨title, author, selftext, created_utc, score, num_comments, upvote_ratio, url⟩

/-- A prediction response with all directly subscripted fields present. -/
def fullPredictionDict : Dict :=
  [("prediction", JVal.num 1),
   ("prediction_percent", JVal.num 4),
   ("symbol", JVal.str "AAPL"),
   ("timestamp", JVal.str "2024-01-01T12:00:00.000000"),
   ("data_sources", JVal.obj [("financial", JVal.bool true)])]

/-- The prediction fields the comparative-analysis loop reads. -/
structure PredictionResult where
  prediction_percent : ℚ
  timestamp : String

/-- The stock-info fields the comparative-analysis loop reads; every field
is accessed with a defaulted .get, hence the Option fields. -/
structure StockInfo where
  company_name : Option String
  sector : Option String
  current_price : Option ℚ
  market_cap : Option ℚ

/-- Lines 419-451: the "Información de la Acción" text of one row.
Defaults: company_name/sector 'N/A', current_price 0, market_cap None. -/
def buildStockInfoText (stock_info : Option StockInfo) : String :=
  match stock_info with
  | none => "❌ Información no disponible"
  | some si =>
    let company_name := si.company_name.getD "N/A"
    let sector := si.sector.getD "N/A"
    let current_price := si.current_price.getD 0
    let mcap := market_cap_str si.market_cap
    let parts1 : List String := if company_name ≠ "N/A" then ["🏢 " ++ company_name] else []
    let parts2 := if sector ≠ "N/A" then parts1 ++ ["📊 " ++ sector] else parts1
    let parts3 := if 0 < current_price then parts2 ++ ["💰 $" ++ fmt2 current_price] else parts2
    let parts4 := if mcap ≠ "N/A" then parts3 ++ ["📈 " ++ mcap] else parts3
    if parts4 = [] then "❌ Información no disponible" else String.intercalate "\n" parts4

/-- One row of the comparative results table (lines 453-458). -/
structure Row where
  symbol : String
  stock_info_text : String
  prediction_percent : ℚ
  timestamp : String

/-- The row appended for a symbol whose prediction succeeded
(lines 453-458; timestamp truncated to 19 characters). -/
def rowOf (get_stock_info_of : String → Option StockInfo) (symbol : String)
    (pred_data : PredictionResult) : Row :=
  ⟨symbol, buildStockInfoText (get_stock_info_of symbol),
   pred_data.prediction_percent, pred_data.timestamp.take 19⟩

/-- Lines 413-458: the predictions loop of the Análisis tab. For each
symbol, fetch prediction and stock info; append a row only when the
prediction is present (`if pred_data:`); failures are skipped silently. -/
def analysisPredictions (get_prediction_of : String → Option PredictionResult)
    (get_stock_info_of : String → Option StockInfo) (symbols : List String) : List Row :=
  symbols.foldl
    (fun predictions symbol =>
      match get_prediction_of symbol with
      | some pred_data => predictions ++ [rowOf get_stock_info_of symbol pred_data]
      | none => predictions)
    []

/-- Lines 460-486: `if predictions:` shows the table, `else` shows the
single error message - the error is shown exactly when no row exists. -/
def analysisShowsError (get_prediction_of : String → Option PredictionResult)
    (get_stock_info_of : String → Option StockInfo) (symbols : List String) : Bool :=
  (analysisPredictions get_prediction_of get_stock_info_of symbols).isEmpty

/-- A concrete prediction fetcher for evaluating the loop: AAPL succeeds,
everything else returns the unavailable sentinel. -/
def predStub : String → Option PredictionResult :=
  fun s => if s = "AAPL" then some ⟨4, "2024-01-01T12:00:00.000000"⟩ else none

/-- A concrete stock-info fetcher: always unavailable. -/
def stockStub : String → Option StockInfo :=
  fun _ => none

/-! Theorems. -/

/-- Lookup succeeds exactly when the key occurs in the dict. -/
theorem dget_isSome_iff (d : Dict) (k : String) :
    (dget d k).isSome = true ↔ k ∈ d.map Prod.fst := by
  induction d with
  | nil => simp [dget]
  | cons p rest ih =>
    obtain ⟨k', v⟩ := p
    by_cases h : k' = k
    · subst h
      simp [dget]
    · have h' : ¬ k = k' := fun e => h e.symm
      simp [dget, h, h', ih]

/-- The comparative-analysis loop is the filterMap of its row builder. -/
theorem analysisPredictions_eq_filterMap
    (get_prediction_of : String → Option PredictionResult)
    (get_stock_info_of : String → Option StockInfo) (symbols : List String) :
    analysisPredictions get_prediction_of get_stock_info_of symbols
      = symbols.filterMap
          (fun s => (get_prediction_of s).map (rowOf get_stock_info_of s)) := by
  have key : ∀ (l : List String) (acc : List Row),
      l.foldl
        (fun predictions symbol =>
          match get_prediction_of symbol with
          | some pred_data => predictions ++ [rowOf get_stock_info_of symbol pred_data]
          | none => predictions)
        acc
      = acc ++ l.filterMap
          (fun s => (get_prediction_of s).map (rowOf get_stock_info_of s)) := by
    intro l
    induction l with
    | nil => intro acc; simp
    | cons s rest ih =>
      intro acc
      rw [List.foldl_cons, List.filterMap_cons]
      cases hp : get_prediction_of s with
      | none => simp only [hp, ih, Option.map_none']
      | some pd => simp only [hp, ih, Option.map_some', List.append_assoc,
          List.singleton_append]
  exact (key symbols []).trans (by simp)

/-- C1 (amended): the prediction sentiment banding of lines 379-386 is a
pure total function of the percent p: p > 2 strong bullish, 0 < p ≤ 2
bullish, -2 < p ≤ 0 bearish, p ≤ -2 strong bearish; the boundary p = 2.0
is bullish (not strong bullish) and the boundary p = -2.0 is strong
bearish. -/
theorem interpret_band_partition (p : ℚ) :
    (2 < p → interpretBand p = Band.strongBullish) ∧
    (0 < p → p ≤ 2 → interpretBand p = Band.bullish) ∧
    (-2 < p → p ≤ 0 → interpretBand p = Band.bearish) ∧
    (p ≤ -2 → interpretBand p = Band.strongBearish) ∧
    interpretBand 2 = Band.bullish ∧
    interpretBand (-2) = Band.strongBearish := by
  refine ⟨fun h1 => ?_, fun h0 h2 => ?_, fun hm h0 => ?_, fun h => ?_, by decide, by decide⟩
  · unfold interpretBand
    rw [if_pos h1]
  · unfold interpretBand
    rw [if_neg (by linarith), if_pos h0]
  · unfold interpretBand
    rw [if_neg (by linarith), if_neg (by linarith), if_pos hm]
  · unfold interpretBand
    rw [if_neg (by linarith), if_neg (by linarith), if_neg (by linarith)]

/-- Witness for the banding partition at concrete percents. -/
theorem interpret_band_partition_witness :
    interpretBand 1 = Band.bullish ∧ interpretBand 3 = Band.strongBullish :=
  ⟨(interpret_band_partition 1).2.1 (by norm_num) (by norm_num),
   (interpret_band_partition 3).1 (by norm_num)⟩

/-- C1 counterexample: at p = -2.0 the interpretation is the strong-bearish
tier, not the bearish one the claim names. -/
theorem interpret_band_neg_two_counterexample :
    interpretBand (-2) = Band.strongBearish ∧
    (interpretBand (-2) == Band.bearish) = false := by
  exact ⟨by decide, by decide⟩

/-- C2: every API operation returns the parsed JSON body exactly on HTTP
200 (health as the second component of its pair, with the healthy flag),
and the sentinel on any other status, transport error or malformed body;
each operation issues exactly one request, so no retry happens. -/
theorem api_contract (api_url symbol text subreddits period interval : String)
    (include_sentiment : Bool) (limit : Nat) (r : ApiResult JVal) :
    (∀ body : JVal, contractResult r = some body ↔ r = ApiResult.response 200 (some body)) ∧
    check_api_health api_url r = ((contractResult r).isSome, contractResult r) ∧
    get_prediction symbol include_sentiment r = contractResult r ∧
    get_model_info r = contractResult r ∧
    get_stock_info symbol r = contractResult r ∧
    get_technical_indicators symbol r = contractResult r ∧
    get_reddit_sentiment symbol limit r = contractResult r ∧
    get_comprehensive_reddit_analysis symbol subreddits limit r = contractResult r ∧
    get_available_subreddits r = contractResult r ∧
    analyze_text_api text r = contractResult r ∧
    get_reddit_posts symbol limit r = contractResult r ∧
    get_historical_data_api symbol period interval r = contractResult r ∧
    (check_api_health_requests api_url).length = 1 ∧
    (get_prediction_requests api_url symbol include_sentiment).length = 1 ∧
    (get_model_info_requests api_url).length = 1 ∧
    (get_stock_info_requests api_url symbol).length = 1 ∧
    (get_technical_indicators_requests api_url symbol).length = 1 ∧
    (get_reddit_sentiment_requests api_url symbol limit).length = 1 ∧
    (get_comprehensive_reddit_analysis_requests api_url symbol subreddits limit).length = 1 ∧
    (get_available_subreddits_requests api_url).length = 1 ∧
    (analyze_text_api_requests api_url text).length = 1 ∧
    (get_reddit_posts_requests api_url symbol limit).length = 1 ∧
    (get_historical_data_api_requests api_url symbol period interval).length = 1 := by
  refine ⟨?_, ?_, rfl, rfl, rfl, rfl, rfl, rfl, rfl, rfl, rfl, rfl,
    rfl, rfl, rfl, rfl, rfl, rfl, rfl, rfl, rfl, rfl, rfl⟩
  · intro body
    constructor
    · intro h
      match r, h with
      | ApiResult.response 200 (some b), h => exact congrArg (ApiResult.response 200) h
    · intro h
      subst h
      rfl
  · cases r with
    | failure => rfl
    | response s b =>
      unfold check_api_health contractResult
      split <;> rfl

/-- C3: the market-cap formatter picks T for m ≥ 10^12, B for
10^9 ≤ m < 10^12, M for 10^6 ≤ m < 10^9, thousands-separated digits for
0 < m < 10^6, and N/A for zero or absent values; the boundaries 10^12,
10^9, 10^6 select the larger unit; and the second copy of the formatter
(lines 765-777) agrees with the first (lines 427-438) everywhere. -/
theorem market_cap_formatting_spec (m : ℚ) (hm : 0 ≤ m) :
    (10^12 ≤ m → market_cap_str (some m) = "$" ++ fmt1 (m / 10^12) ++ "T") ∧
    (10^9 ≤ m → m < 10^12 → market_cap_str (some m) = "$" ++ fmt1 (m / 10^9) ++ "B") ∧
    (10^6 ≤ m → m < 10^9 → market_cap_str (some m) = "$" ++ fmt1 (m / 10^6) ++ "M") ∧
    (0 < m → m < 10^6 → market_cap_str (some m) = "$" ++ fmtThousands m) ∧
    (m = 0 → market_cap_str (some m) = "N/A") ∧
    market_cap_str none = "N/A" ∧
    market_cap_str (some (10^12)) = "$" ++ fmt1 1 ++ "T" ∧
    market_cap_str (some (10^9)) = "$" ++ fmt1 1 ++ "B" ∧
    market_cap_str (some (10^6)) = "$" ++ fmt1 1 ++ "M" ∧
    fmt1 1 = "1.0" ∧
    (∀ x : Option ℚ, market_cap_formatted x = market_cap_str x) := by
  refine ⟨fun h12 => ?_, fun h9 h12 => ?_, fun h6 h9 => ?_, fun h0 h6 => ?_,
    fun h0 => ?_, rfl, ?_, ?_, ?_, ?_, fun x => rfl⟩
  · simp only [market_cap_str]
    rw [if_neg (by intro e; rw [e] at h12; norm_num at h12), if_pos h12]
  · simp only [market_cap_str]
    rw [if_neg (by intro e; rw [e] at h9; norm_num at h9),
      if_neg (not_le.mpr h12), if_pos h9]
  · simp only [market_cap_str]
    rw [if_neg (by intro e; rw [e] at h6; norm_num at h6),
      if_neg (not_le.mpr (by nlinarith)), if_neg (not_le.mpr h9), if_pos h6]
  · simp only [market_cap_str]
    rw [if_neg (ne_of_gt h0), if_neg (not_le.mpr (by nlinarith)),
      if_neg (not_le.mpr (by nlinarith)), if_neg (not_le.mpr h6)]
  · simp only [market_cap_str]
    rw [if_pos h0]
  · simp only [market_cap_str]
    rw [if_neg (by norm_num), if_pos (le_refl _),
      show ((10:ℚ)^12) / 10^12 = 1 from by norm_num]
  · simp only [market_cap_str]
    rw [if_neg (by norm_num), if_neg (by norm_num), if_pos (le_refl _),
      show ((10:ℚ)^9) / 10^9 = 1 from by norm_num]
  · simp only [market_cap_str]
    rw [if_neg (by norm_num), if_neg (by norm_num), if_neg (by norm_num),
      if_pos (le_refl _), show ((10:ℚ)^6) / 10^6 = 1 from by norm_num]
  · rw [fmt1, show (1:ℚ) * 10 = 10 from by norm_num]
    decide

/-- Witness for the market-cap formatter at concrete inputs. -/
theorem market_cap_formatting_spec_witness :
    market_cap_str (some 0) = "N/A" ∧ market_cap_str none = "N/A" :=
  ⟨(market_cap_formatting_spec 0 le_rfl).2.2.2.2.1 rfl,
   (market_cap_formatting_spec 0 le_rfl).2.2.2.2.2.1⟩

/-- C4: evaluating the rendering lookups of the code on responses that lack
a directly subscripted key: the prediction view and the posts view abort
(KeyError, modelled as none) instead of showing a defaulted N/A, while a
fully populated response renders fine. -/
theorem render_direct_subscript_keyerror :
    renderPrediction [("symbol", JVal.str "AAPL")] = none ∧
    renderPost [("title", JVal.str "GME"), ("author", JVal.str "u1")] = none ∧
    (renderPrediction fullPredictionDict).isSome = true := by
  exact ⟨rfl, rfl, rfl⟩

/-- A second cachedCall with the same key within the TTL returns the value
stored by the first call and makes no network call, whatever the second
call's own fetch would have returned. -/
theorem cachedCall_second_hit {κ ω : Type} [DecidableEq κ] (ttl t1 t2 : Nat)
    (h : t2 < t1 + ttl) (k : κ) (fetchA fetchB : Unit → ω) :
    (cachedCall ttl t2 (cachedCall ttl t1 [] k fetchA).2.1 k fetchB).1 = fetchA () ∧
    (cachedCall ttl t2 (cachedCall ttl t1 [] k fetchA).2.1 k fetchB).2.2 = false := by
  have hfirst : (cachedCall ttl t1 ([] : List (CacheEntry κ ω)) k fetchA).2.1
      = [⟨k, t1, fetchA ()⟩] := rfl
  have hlook : cacheLookup ttl t2 [⟨k, t1, fetchA ()⟩] k = some (fetchA ()) := by
    unfold cacheLookup
    rw [List.find?_cons_of_pos]
    simp [h]
  rw [hfirst]
  unfold cachedCall
  rw [hlook]
  exact ⟨rfl, rfl⟩

/-- C5 (amended): only check_api_health's cache key includes the base URL;
every other cached operation's st.cache_data key is the tuple of its own
explicit parameters, with api_url closed over at module level, so for each
of the ten operations a second call within its TTL that differs only in
base URL returns the value cached under the first URL and makes no network
call. -/
theorem cache_key_behaviour (net : HttpRequest → String)
    (urlA urlB symbol subreddits period interval text : String)
    (include_sentiment : Bool) (limit : Nat) :
    (∀ t1 t2, t2 < t1 + 600 →
      (get_prediction_cached net urlB
          (get_prediction_cached net urlA [] t1 symbol include_sentiment).2.1
          t2 symbol include_sentiment).1
        = net (get_prediction_request urlA symbol include_sentiment) ∧
      (get_prediction_cached net urlB
          (get_prediction_cached net urlA [] t1 symbol include_sentiment).2.1
          t2 symbol include_sentiment).2.2 = false) ∧
    (∀ t1 t2, t2 < t1 + 3600 →
      (get_model_info_cached net urlB
          (get_model_info_cached net urlA [] t1).2.1 t2).1
        = net (get_model_info_request urlA) ∧
      (get_model_info_cached net urlB
          (get_model_info_cached net urlA [] t1).2.1 t2).2.2 = false) ∧
    (∀ t1 t2, t2 < t1 + 600 →
      (get_stock_info_cached net urlB
          (get_stock_info_cached net urlA [] t1 symbol).2.1 t2 symbol).1
        = net (get_stock_info_request urlA symbol) ∧
      (get_stock_info_cached net urlB
          (get_stock_info_cached net urlA [] t1 symbol).2.1 t2 symbol).2.2 = false) ∧
    (∀ t1 t2, t2 < t1 + 300 →
      (get_technical_indicators_cached net urlB
          (get_technical_indicators_cached net urlA [] t1 symbol).2.1 t2 symbol).1
        = net (get_technical_indicators_request urlA symbol) ∧
      (get_technical_indicators_cached net urlB
          (get_technical_indicators_cached net urlA [] t1 symbol).2.1 t2 symbol).2.2
        = false) ∧
    (∀ t1 t2, t2 < t1 + 300 →
      (get_reddit_sentiment_cached net urlB
          (get_reddit_sentiment_cached net urlA [] t1 symbol limit).2.1
          t2 symbol limit).1
        = net (get_reddit_sentiment_request urlA symbol limit) ∧
      (get_reddit_sentiment_cached net urlB
          (get_reddit_sentiment_cached net urlA [] t1 symbol limit).2.1
          t2 symbol limit).2.2 = false) ∧
    (∀ t1 t2, t2 < t1 + 300 →
      (get_comprehensive_reddit_analysis_cached net urlB
          (get_comprehensive_reddit_analysis_cached net urlA [] t1
            symbol subreddits limit).2.1
          t2 symbol subreddits limit).1
        = net (get_comprehensive_reddit_analysis_request urlA symbol subreddits limit) ∧
      (get_comprehensive_reddit_analysis_cached net urlB
          (get_comprehensive_reddit_analysis_cached net urlA [] t1
            symbol subreddits limit).2.1
          t2 symbol subreddits limit).2.2 = false) ∧
    (∀ t1 t2, t2 < t1 + 3600 →
      (get_available_subreddits_cached net urlB
          (get_available_subreddits_cached net urlA [] t1).2.1 t2).1
        = net (get_available_subreddits_request urlA) ∧
      (get_available_subreddits_cached net urlB
          (get_available_subreddits_cached net urlA [] t1).2.1 t2).2.2 = false) ∧
    (∀ t1 t2, t2 < t1 + 60 →
      (analyze_text_api_cached net urlB
          (analyze_text_api_cached net urlA [] t1 text).2.1 t2 text).1
        = net (analyze_text_api_request urlA text) ∧
      (analyze_text_api_cached net urlB
          (analyze_text_api_cached net urlA [] t1 text).2.1 t2 text).2.2 = false) ∧
    (∀ t1 t2, t2 < t1 + 300 →
      (get_reddit_posts_cached net urlB
          (get_reddit_posts_cached net urlA [] t1 symbol limit).2.1
          t2 symbol limit).1
        = net (get_reddit_posts_request urlA symbol limit) ∧
      (get_reddit_posts_cached net urlB
          (get_reddit_posts_cached net urlA [] t1 symbol limit).2.1
          t2 symbol limit).2.2 = false) ∧
    (∀ t1 t2, t2 < t1 + 300 →
      (get_historical_data_api_cached net urlB
          (get_historical_data_api_cached net urlA [] t1 symbol period interval).2.1
          t2 symbol period interval).1
        = net (get_historical_data_api_request urlA symbol period interval) ∧
      (get_historical_data_api_cached net urlB
          (get_historical_data_api_cached net urlA [] t1 symbol period interval).2.1
          t2 symbol period interval).2.2 = false) ∧
    (urlA ≠ urlB → check_api_health_cache_key urlA ≠ check_api_health_cache_key urlB) := by
  refine ⟨fun t1 t2 h => cachedCall_second_hit 600 t1 t2 h _ _ _,
    fun t1 t2 h => cachedCall_second_hit 3600 t1 t2 h _ _ _,
    fun t1 t2 h => cachedCall_second_hit 600 t1 t2 h _ _ _,
    fun t1 t2 h => cachedCall_second_hit 300 t1 t2 h _ _ _,
    fun t1 t2 h => cachedCall_second_hit 300 t1 t2 h _ _ _,
    fun t1 t2 h => cachedCall_second_hit 300 t1 t2 h _ _ _,
    fun t1 t2 h => cachedCall_second_hit 3600 t1 t2 h _ _ _,
    fun t1 t2 h => cachedCall_second_hit 60 t1 t2 h _ _ _,
    fun t1 t2 h => cachedCall_second_hit 300 t1 t2 h _ _ _,
    fun t1 t2 h => cachedCall_second_hit 300 t1 t2 h _ _ _,
    fun hne hkey => hne hkey⟩

/-- Witness for the cache-key behaviour at concrete inputs, one cached
operation per TTL class. -/
theorem cache_key_behaviour_witness :
    (get_prediction_cached HttpRequest.path "urlB"
        (get_prediction_cached HttpRequest.path "urlA" [] 0 "AAPL" true).2.1
        10 "AAPL" true).1
      = HttpRequest.path (get_prediction_request "urlA" "AAPL" true) ∧
    (get_stock_info_cached HttpRequest.path "urlB"
        (get_stock_info_cached HttpRequest.path "urlA" [] 0 "AAPL").2.1
        10 "AAPL").2.2 = false ∧
    (get_model_info_cached HttpRequest.path "urlB"
        (get_model_info_cached HttpRequest.path "urlA" [] 0).2.1 10).1
      = HttpRequest.path (get_model_info_request "urlA") ∧
    (get_reddit_posts_cached HttpRequest.path "urlB"
        (get_reddit_posts_cached HttpRequest.path "urlA" [] 0 "AAPL" 20).2.1
        10 "AAPL" 20).2.2 = false ∧
    (analyze_text_api_cached HttpRequest.path "urlB"
        (analyze_text_api_cached HttpRequest.path "urlA" [] 0 "hello").2.1
        10 "hello").1
      = HttpRequest.path (analyze_text_api_request "urlA" "hello") :=
  ⟨((cache_key_behaviour HttpRequest.path "urlA" "urlB" "AAPL" "wallstreetbets" "30d" "1d"
      "hello" true 20).1 0 10 (by decide)).1,
   ((cache_key_behaviour HttpRequest.path "urlA" "urlB" "AAPL" "wallstreetbets" "30d" "1d"
      "hello" true 20).2.2.1 0 10 (by decide)).2,
   ((cache_key_behaviour HttpRequest.path "urlA" "urlB" "AAPL" "wallstreetbets" "30d" "1d"
      "hello" true 20).2.1 0 10 (by decide)).1,
   ((cache_key_behaviour HttpRequest.path "urlA" "urlB" "AAPL" "wallstreetbets" "30d" "1d"
      "hello" true 20).2.2.2.2.2.2.2.2.1 0 10 (by decide)).2,
   ((cache_key_behaviour HttpRequest.path "urlA" "urlB" "AAPL" "wallstreetbets" "30d" "1d"
      "hello" true 20).2.2.2.2.2.2.2.1 0 10 (by decide)).1⟩

/-- C5 counterexample: two get_prediction calls that differ only in the
base URL share the cache entry - the second returns the body fetched from
urlA (its request path) without any network call. -/
theorem get_prediction_cache_shares_base_url :
    (get_prediction_cached HttpRequest.path "urlB"
        (get_prediction_cached HttpRequest.path "urlA" [] 0 "AAPL" true).2.1
        10 "AAPL" true).1 = "urlA/predict/AAPL" ∧
    (get_prediction_cached HttpRequest.path "urlB"
        (get_prediction_cached HttpRequest.path "urlA" [] 0 "AAPL" true).2.1
        10 "AAPL" true).2.2 = false ∧
    (("urlA" : String) == "urlB") = false := by
  exact ⟨by decide, by decide, by decide⟩

/-- C6: the RSI banding of lines 802-808 warns overbought exactly when
rsi > 70, notices oversold exactly when rsi < 30, and is neutral in
between; both boundaries 70.0 and 30.0 are neutral, and 70.01 is
overbought. -/
theorem rsi_banding_spec (rsi : ℚ) :
    (rsi_interpretation rsi = RsiBand.overbought ↔ 70 < rsi) ∧
    (rsi_interpretation rsi = RsiBand.oversold ↔ rsi < 30) ∧
    (rsi_interpretation rsi = RsiBand.neutral ↔ 30 ≤ rsi ∧ rsi ≤ 70) ∧
    rsi_interpretation 70 = RsiBand.neutral ∧
    rsi_interpretation 30 = RsiBand.neutral ∧
    rsi_interpretation (7001/100) = RsiBand.overbought := by
  refine ⟨?_, ?_, ?_, by decide, by decide, ?_⟩
  · unfold rsi_interpretation
    split_ifs with h1 h2
    · exact iff_of_true rfl h1
    · exact iff_of_false (by decide) h1
    · exact iff_of_false (by decide) h1
  · unfold rsi_interpretation
    split_ifs with h1 h2
    · exact iff_of_false (by decide) (by linarith)
    · exact iff_of_true rfl h2
    · exact iff_of_false (by decide) h2
  · unfold rsi_interpretation
    split_ifs with h1 h2
    · refine iff_of_false (by decide) ?_
      rintro ⟨h3, h4⟩
      linarith
    · refine iff_of_false (by decide) ?_
      rintro ⟨h3, h4⟩
      linarith
    · exact iff_of_true rfl ⟨not_lt.mp h2, not_lt.mp h1⟩
  · unfold rsi_interpretation
    rw [if_pos (by norm_num : (7001:ℚ)/100 > 70)]

/-- C7: the Reddit response classification of line 1099 is comprehensive
exactly when the subreddit_analysis key is present, and depends on nothing
else: two responses agreeing on the presence of that key classify
identically. -/
theorem is_comprehensive_spec :
    (∀ d : Dict, is_comprehensive d = true ↔ "subreddit_analysis" ∈ d.map Prod.fst) ∧
    (∀ d₁ d₂ : Dict,
      ("subreddit_analysis" ∈ d₁.map Prod.fst ↔ "subreddit_analysis" ∈ d₂.map Prod.fst) →
      is_comprehensive d₁ = is_comprehensive d₂) := by
  refine ⟨fun d => dget_isSome_iff d "subreddit_analysis", fun d₁ d₂ hiff => ?_⟩
  have e1 := dget_isSome_iff d₁ "subreddit_analysis"
  have e2 := dget_isSome_iff d₂ "subreddit_analysis"
  unfold is_comprehensive
  cases hb1 : (dget d₁ "subreddit_analysis").isSome <;>
    cases hb2 : (dget d₂ "subreddit_analysis").isSome <;>
      simp_all

/-- Witness for the classification: two different comprehensive responses
classify identically. -/
theorem is_comprehensive_spec_witness :
    is_comprehensive [("subreddit_analysis", JVal.obj [])]
      = is_comprehensive [("total_posts", JVal.num 12), ("subreddit_analysis", JVal.null)] :=
  is_comprehensive_spec.2 _ _ (by decide)

/-- C8: the analyze-text guard of line 907 evaluated at the boundary: the
empty text and the three-character text "abc" are rejected (no network
call, only the warning of line 1007), and a four-character text passes -
so a text of exactly 3 characters is rejected although the claim (and the
warning text itself) promises that 3 characters suffice. -/
theorem analyze_text_guard_boundary :
    analyze_text_guard "abc" = false ∧
    (pyStrip "abc").length = 3 ∧
    analyze_text_guard "" = false ∧
    analyze_text_guard "abcd" = true := by
  exact ⟨by decide, by decide, by decide, by decide⟩

/-- C9: the thermometer gauge's progress indicator is
(clamp(v, -10, 10) + 10) / 20, always inside [0, 1], and the sentiment
label the gauge shows is exactly the four-tier prediction band of the
clamped value. -/
theorem thermometer_gauge_spec (value : ℚ) :
    progress_value value = (max (-10) (min 10 value) + 10) / 20 ∧
    0 ≤ progress_value value ∧
    progress_value value ≤ 1 ∧
    (gaugeStyle value).sentiment = bandLabel (interpretBand (normalized_value value)) := by
  have hlo : (-10 : ℚ) ≤ normalized_value value := le_max_left _ _
  have hhi : normalized_value value ≤ 10 := max_le (by norm_num) (min_le_left _ _)
  refine ⟨rfl, ?_, ?_, ?_⟩
  · unfold progress_value
    apply div_nonneg _ (by norm_num)
    linarith
  · unfold progress_value
    rw [div_le_one (by norm_num)]
    linarith
  · simp only [gaugeStyle, interpretBand, normalized_value]
    split_ifs <;> rfl

/-- C10: in the comparative-analysis loop, a symbol whose prediction comes
back as the sentinel gets no row and no per-symbol error; the table holds
exactly the successfully predicted symbols in input order; and the single
error message appears exactly when every symbol failed. -/
theorem analysis_loop_spec (get_prediction_of : String → Option PredictionResult)
    (get_stock_info_of : String → Option StockInfo) (symbols : List String) :
    ((analysisPredictions get_prediction_of get_stock_info_of symbols).map Row.symbol
        = symbols.filter (fun s => (get_prediction_of s).isSome)) ∧
    (analysisPredictions get_prediction_of get_stock_info_of symbols = []
        ↔ ∀ s ∈ symbols, get_prediction_of s = none) ∧
    (∀ s, get_prediction_of s = none →
      ∀ r ∈ analysisPredictions get_prediction_of get_stock_info_of symbols,
        r.symbol ≠ s) ∧
    (analysisShowsError get_prediction_of get_stock_info_of symbols = true
        ↔ ∀ s ∈ symbols, get_prediction_of s = none) := by
  have hmap : (analysisPredictions get_prediction_of get_stock_info_of symbols).map Row.symbol
      = symbols.filter (fun s => (get_prediction_of s).isSome) := by
    rw [analysisPredictions_eq_filterMap]
    induction symbols with
    | nil => rfl
    | cons s rest ih =>
      rw [List.filterMap_cons, List.filter_cons]
      cases hp : get_prediction_of s with
      | none => simpa [hp] using ih
      | some pd => simpa [hp, rowOf] using ih
  have hempty : analysisPredictions get_prediction_of get_stock_info_of symbols = []
      ↔ ∀ s ∈ symbols, get_prediction_of s = none := by
    rw [analysisPredictions_eq_filterMap, List.filterMap_eq_nil_iff]
    constructor
    · intro hall s hs
      have := hall s hs
      exact Option.map_eq_none'.mp this
    · intro hall s hs
      rw [hall s hs]
      rfl
  refine ⟨hmap, hempty, ?_, ?_⟩
  · intro s hs r hr hcontra
    have h1 : r.symbol ∈ (analysisPredictions get_prediction_of get_stock_info_of
        symbols).map Row.symbol := List.mem_map_of_mem _ hr
    rw [hmap] at h1
    have h2 := (List.mem_filter.mp h1).2
    rw [hcontra, hs] at h2
    exact absurd h2 (by decide)
  · unfold analysisShowsError
    rw [List.isEmpty_iff]
    exact hempty

/-- Witness for the comparative-analysis loop with one succeeding and one
failing symbol. -/
theorem analysis_loop_spec_witness :
    (analysisPredictions predStub stockStub ["AAPL", "ZZZZ"]).map Row.symbol = ["AAPL"] ∧
    analysisShowsError predStub stockStub ["ZZZZ"] = true :=
  ⟨((analysis_loop_spec predStub stockStub ["AAPL", "ZZZZ"]).1).trans (by decide),
   (analysis_loop_spec predStub stockStub ["ZZZZ"]).2.2.2.mpr (fun s hs => by
     rw [List.mem_singleton] at hs
     subst hs
     rfl)⟩

end WSB
